import Mathlib

/-!
Verification of the Acton SP2150 monochromator control library
(`src/sp2150/sp2150.py` and `src/virtual_sp2150/virtual_sp2150.py`).

Strings are embedded as `List Char` (named `Str`).  Python float values are
embedded as rationals (`ℚ`): every numeric value appearing in the spec and in
the claims (1000.0, 500.0, …) is exactly representable, so no binary-float
rounding behaviour is relied on anywhere.  The VISA transport
(`self.instr.query`) is embedded as an oracle `Str → Str` mapping the
transmitted command to the instrument reply.  Python exceptions are embedded
as `Except PyError`.
-/

/-- Strings of the embedded program, as lists of characters. -/
abbrev Str := List Char

/-- Python `ValueError` raised by `_setter_query` (validation), `ValueError`
raised by a failed `int(...)`/`float(...)` conversion (format), and
`TypeError` raised by `int(None)`/`float(None)`. -/
inductive PyError where
  | validation : Str → PyError
  | format : Str → PyError
  | typeErr : PyError
deriving DecidableEq

/-- Model of Python `str.strip(chars)` acting on the left end only:
drop leading characters belonging to the character set `set`. -/
def pyStripLeft (s : Str) (set : Str) : Str :=
  s.dropWhile (fun c => set.contains c)

/-- Model of Python `str.strip(chars)`: remove all leading and trailing
characters that belong to the character SET `set` (Python treats the
argument as a set of characters, not as a prefix/suffix string). -/
def pyStrip (s : Str) (set : Str) : Str :=
  ((pyStripLeft s set).reverse.dropWhile (fun c => set.contains c)).reverse

/-- Model of Python `str.endswith(suffix)`. -/
def pyEndswith (s sfx : Str) : Bool :=
  sfx.isSuffixOf s

/-- Whether a character is an ASCII (Python `str.isspace`-style) blank
relevant to `int()`/`float()` conversion. -/
def isPySpace (c : Char) : Bool :=
  c = ' ' || c = '\t' || c = '\n' || c = '\r' || c = '\x0b' || c = '\x0c'

/-- Strip surrounding whitespace the way Python `int()`/`float()` do before
parsing the numeric body. -/
def stripWs (s : Str) : Str :=
  ((s.dropWhile isPySpace).reverse.dropWhile isPySpace).reverse

/-- Numeric value of a decimal digit string read left to right. -/
def digitsToNat (s : Str) : Nat :=
  s.foldl (fun a c => a * 10 + (c.toNat - 48)) 0

/-- Every character of `s` is a decimal digit. -/
def allDigits (s : Str) : Bool :=
  s.all Char.isDigit

/-- Model of Python `int(s)` for strings: optional surrounding whitespace,
optional sign, then one or more decimal digits.  (Numeric underscores and
non-decimal bases are not modelled; no reply in this protocol uses them.)
Returns `none` where Python raises `ValueError`. -/
def pyParseInt (s : Str) : Option Int :=
  match stripWs s with
  | '+' :: rest =>
      if rest ≠ [] && allDigits rest then some (Int.ofNat (digitsToNat rest)) else none
  | '-' :: rest =>
      if rest ≠ [] && allDigits rest then some (-(Int.ofNat (digitsToNat rest))) else none
  | rest =>
      if rest ≠ [] && allDigits rest then some (Int.ofNat (digitsToNat rest)) else none

/-- Split a string at its first dot: the part before and, when a dot is
present, the part after it. -/
def splitDot (s : Str) : Str × Option Str :=
  match s.span (fun c => c ≠ '.') with
  | (before, []) => (before, none)
  | (before, _ :: after) => (before, some after)

/-- Parse the unsigned body of a Python float literal: decimal digits with an
optional dot, at least one digit overall, no second dot. -/
def pyParseFloatBody (s : Str) : Option ℚ :=
  match splitDot s with
  | (ip, none) =>
      if ip ≠ [] && allDigits ip then some ((digitsToNat ip : ℚ)) else none
  | (ip, some fp) =>
      if allDigits ip && allDigits fp && (ip ≠ [] || fp ≠ []) then
        some ((digitsToNat ip : ℚ) + (digitsToNat fp : ℚ) / (10 : ℚ) ^ fp.length)
      else none

/-- Model of Python `float(s)` for strings: optional surrounding whitespace,
optional sign, then a plain decimal literal.  The value is represented as a
rational; exponent notation, `inf` and `nan` are not modelled (no reply in
this protocol uses them).  Returns `none` where Python raises `ValueError`. -/
def pyParseFloat (s : Str) : Option ℚ :=
  match stripWs s with
  | '+' :: rest => pyParseFloatBody rest
  | '-' :: rest => (pyParseFloatBody rest).map (fun q => -q)
  | rest => pyParseFloatBody rest

/-- The decimal digit character for `n < 10`. -/
def digitChar (n : Nat) : Char :=
  Char.ofNat (48 + n)

/-- Decimal digit rendering, fuel-indexed so that the recursion is
structural (`n + 1` units of fuel always suffice, see `natDigits`). -/
def natDigitsAux : Nat → Nat → Str
  | 0, _ => []
  | fuel + 1, n =>
      if n < 10 then [digitChar n]
      else natDigitsAux fuel (n / 10) ++ [digitChar (n % 10)]

/-- Decimal digit string of a natural number (what Python `str`/`format`
produce for a non-negative integer). -/
def natDigits (n : Nat) : Str :=
  natDigitsAux (n + 1) n

/-- Model of Python `f"{n}"` for an `int`: optional minus sign followed by
the decimal digits. -/
def intStr (n : Int) : Str :=
  (if n < 0 then ['-'] else []) ++ natDigits n.natAbs

/-- Model of Python `f"{x:.1f}"` applied to the value `t / 10`: fixed-point
rendering with exactly one digit after the decimal point.  `t` is the value
in tenths; callers round the rational value to tenths first (rounding at
exact midpoints is immaterial to every claim, all of which concern either
the textual shape or values exactly representable in tenths). -/
def formatFixed1 (t : Int) : Str :=
  (if t < 0 then ['-'] else []) ++ natDigits (t.natAbs / 10) ++ ['.', digitChar (t.natAbs % 10)]

/-- Python `f"{float(x):.1f}"` on a rational value: round to tenths, render
with one decimal place. -/
def format1f (q : ℚ) : Str :=
  formatFixed1 (round (q * 10))

/-- Conversion applied by the adapter to a CLI-supplied parameter before a
float command is built: Python `float(x)` where `x` is an optional string
(`args.parameter`).  `float(None)` raises `TypeError`; an unparsable string
raises `ValueError`. -/
def pyFloatOf : Option Str → Except PyError ℚ
  | none => .error .typeErr
  | some s =>
      match pyParseFloat s with
      | some q => .ok q
      | none => .error (.format s)

/-- Conversion applied by the adapter to a CLI-supplied parameter before an
int command is built: Python `int(x)` on an optional string. -/
def pyIntOf : Option Str → Except PyError Int
  | none => .error .typeErr
  | some s =>
      match pyParseInt s with
      | some n => .ok n
      | none => .error (.format s)

/-- `int(s)` as used by the numeric getters: a parse failure is a Python
`ValueError` carrying the offending string (a format error). -/
def intParse (s : Str) : Except PyError Int :=
  match pyParseInt s with
  | some n => .ok n
  | none => .error (.format s)

/-- `float(s)` as used by the numeric getters. -/
def floatParse (s : Str) : Except PyError ℚ :=
  match pyParseFloat s with
  | some q => .ok q
  | none => .error (.format s)

namespace sp2150

/-- The character-set argument `" ok\r\n"` passed to `str.strip` by every
getter of the instrument adapter. -/
def stripChars : Str := String.toList " ok\r\n"

/-- The suffix `"ok\r\n"` checked by `_setter_query` and
`scan_to_wavelength`. -/
def okSuffix : Str := String.toList "ok\r\n"

/-- The error message built by `_setter_query` (and, verbatim, by
`scan_to_wavelength`): a fixed prefix followed by the raw instrument
reply. -/
def errMsg (resp : Str) : Str :=
  String.toList "Command failed. Check parameter and try again. Instrument response message: "
    ++ resp

/-- `sp2150._setter_query` applied to the reply it read: raise `ValueError`
when the reply does not end with `"ok\r\n"`, otherwise return nothing. -/
def setter_query (resp : Str) : Except PyError Unit :=
  if pyEndswith resp okSuffix then .ok () else .error (.validation (errMsg resp))

/-- `sp2150.scan_speed` getter.  `instr` is the transport oracle
(`self.instr.query`); the first component is the list of commands
transmitted. -/
def scan_speed_get (instr : Str → Str) : List Str × Except PyError ℚ :=
  let cmd := String.toList "?NM/MIN"
  ([cmd], floatParse (pyStrip (instr cmd) stripChars))

/-- `sp2150.scan_speed` setter: `self._setter_query(f"{float(speed):.1f} NM/MIN")`.
The parameter is an optional string, as supplied by the CLI. -/
def scan_speed_set (instr : Str → Str) (speed : Option Str) :
    List Str × Except PyError Unit :=
  match pyFloatOf speed with
  | .error e => ([], .error e)
  | .ok q =>
      let cmd := format1f q ++ String.toList " NM/MIN"
      ([cmd], setter_query (instr cmd))

/-- `sp2150.scan_to_wavelength`: sends `f"{float(wavelength):.1f} NM"` and
checks the reply inline (same validation as `_setter_query`, duplicated in
the source). -/
def scan_to_wavelength (instr : Str → Str) (wavelength : Option Str) :
    List Str × Except PyError Unit :=
  match pyFloatOf wavelength with
  | .error e => ([], .error e)
  | .ok q =>
      let cmd := format1f q ++ String.toList " NM"
      let resp := instr cmd
      ([cmd],
        if pyEndswith resp okSuffix then .ok ()
        else .error (.validation (errMsg resp)))

/-- `sp2150.wavelength` getter. -/
def wavelength_get (instr : Str → Str) : List Str × Except PyError ℚ :=
  let cmd := String.toList "?NM"
  ([cmd], floatParse (pyStrip (instr cmd) stripChars))

/-- `sp2150.wavelength` setter: `self._setter_query(f"{float(wavelength):.1f} GOTO")`. -/
def wavelength_set (instr : Str → Str) (wavelength : Option Str) :
    List Str × Except PyError Unit :=
  match pyFloatOf wavelength with
  | .error e => ([], .error e)
  | .ok q =>
      let cmd := format1f q ++ String.toList " GOTO"
      ([cmd], setter_query (instr cmd))

/-- `sp2150.grating` getter. -/
def grating_get (instr : Str → Str) : List Str × Except PyError Int :=
  let cmd := String.toList "?GRATING"
  ([cmd], intParse (pyStrip (instr cmd) stripChars))

/-- `sp2150.grating` setter: `self._setter_query(f"{int(grating)} GRATING")`. -/
def grating_set (instr : Str → Str) (grating : Option Str) :
    List Str × Except PyError Unit :=
  match pyIntOf grating with
  | .error e => ([], .error e)
  | .ok g =>
      let cmd := intStr g ++ String.toList " GRATING"
      ([cmd], setter_query (instr cmd))

/-- `sp2150.turret` getter. -/
def turret_get (instr : Str → Str) : List Str × Except PyError Int :=
  let cmd := String.toList "?TURRET"
  ([cmd], intParse (pyStrip (instr cmd) stripChars))

/-- `sp2150.turret` setter: `self._setter_query(f"{int(turret)} TURRET")`. -/
def turret_set (instr : Str → Str) (turret : Option Str) :
    List Str × Except PyError Unit :=
  match pyIntOf turret with
  | .error e => ([], .error e)
  | .ok t =>
      let cmd := intStr t ++ String.toList " TURRET"
      ([cmd], setter_query (instr cmd))

/-- `sp2150.grating_info` getter: `self.instr.query("?GRATINGS").strip(" ok\r\n")`. -/
def grating_info_get (instr : Str → Str) : List Str × Str :=
  let cmd := String.toList "?GRATINGS"
  ([cmd], pyStrip (instr cmd) stripChars)

/-- `sp2150.turret_info` getter: `self.instr.query("?TURRETS").strip(" ok\r\n")`. -/
def turret_info_get (instr : Str → Str) : List Str × Str :=
  let cmd := String.toList "?TURRETS"
  ([cmd], pyStrip (instr cmd) stripChars)

/-- `sp2150.filter` getter. -/
def filter_get (instr : Str → Str) : List Str × Except PyError Int :=
  let cmd := String.toList "?FILTER"
  ([cmd], intParse (pyStrip (instr cmd) stripChars))

/-- `sp2150.filter` setter: `self._setter_query(f"{int(filter_pos)} FILTER")`. -/
def filter_set (instr : Str → Str) (filter_pos : Option Str) :
    List Str × Except PyError Unit :=
  match pyIntOf filter_pos with
  | .error e => ([], .error e)
  | .ok f =>
      let cmd := intStr f ++ String.toList " FILTER"
      ([cmd], setter_query (instr cmd))

/-- `sp2150.home_filter`: sends `"FHOME"`, strips and discards the reply,
returns nothing. -/
def home_filter (instr : Str → Str) : List Str × Unit :=
  let cmd := String.toList "FHOME"
  let _resp := pyStrip (instr cmd) stripChars
  ([cmd], ())

end sp2150

/-- A dynamically typed Python value, as stored in the virtual adapter's
fields and passed to its setters (the virtual setters store whatever value
they receive, without coercion). -/
inductive PyVal where
  | int : Int → PyVal
  | float : ℚ → PyVal
  | str : Str → PyVal
deriving DecidableEq

namespace virtual_sp2150

/-- The instance state of `virtual_sp2150.sp2150`: the seven private fields
assigned in `__init__`. -/
structure VState where
  scan_speed : PyVal
  wavelength : PyVal
  grating : PyVal
  turret : PyVal
  grating_info : PyVal
  turret_info : PyVal
  filter : PyVal
deriving DecidableEq

/-- `virtual_sp2150.sp2150.__init__`: the dummy initial state. -/
def init : VState :=
  { scan_speed := .int 1000
    wavelength := .int 0
    grating := .int 1
    turret := .int 1
    grating_info := .str (String.toList "dummy info")
    turret_info := .str (String.toList "dummy info")
    filter := .int 1 }

/-- Virtual `scan_speed` getter. -/
def scan_speed_get (s : VState) : PyVal := s.scan_speed

/-- Virtual `scan_speed` setter. -/
def scan_speed_set (s : VState) (v : PyVal) : VState := { s with scan_speed := v }

/-- Virtual `scan_to_wavelength`. -/
def scan_to_wavelength (s : VState) (v : PyVal) : VState := { s with wavelength := v }

/-- Virtual `wavelength` getter. -/
def wavelength_get (s : VState) : PyVal := s.wavelength

/-- Virtual `wavelength` setter. -/
def wavelength_set (s : VState) (v : PyVal) : VState := { s with wavelength := v }

/-- Virtual `grating` getter. -/
def grating_get (s : VState) : PyVal := s.grating

/-- Virtual `grating` setter. -/
def grating_set (s : VState) (v : PyVal) : VState := { s with grating := v }

/-- Virtual `turret` getter. -/
def turret_get (s : VState) : PyVal := s.turret

/-- Virtual `turret` setter. -/
def turret_set (s : VState) (v : PyVal) : VState := { s with turret := v }

/-- Virtual `grating_info` getter. -/
def grating_info_get (s : VState) : PyVal := s.grating_info

/-- Virtual `turret_info` getter. -/
def turret_info_get (s : VState) : PyVal := s.turret_info

/-- Virtual `filter` getter. -/
def filter_get (s : VState) : PyVal := s.filter

/-- Virtual `filter` setter. -/
def filter_set (s : VState) (v : PyVal) : VState := { s with filter := v }

/-- Virtual `home_filter`: `self._filter = 1`. -/
def home_filter (s : VState) : VState := { s with filter := .int 1 }

end virtual_sp2150

namespace cli

/-- The fourteen function names accepted by the CLI's positional `function`
argument (`choices=[...]`, in source order). -/
def functionChoices : List Str :=
  [ String.toList "set_scan_speed"
  , String.toList "get_scan_speed"
  , String.toList "scan_to_wavelength"
  , String.toList "goto_wavelength"
  , String.toList "get_wavelength"
  , String.toList "set_grating"
  , String.toList "get_grating"
  , String.toList "set_turret"
  , String.toList "get_turret"
  , String.toList "get_grating_info"
  , String.toList "get_turret_info"
  , String.toList "set_filter"
  , String.toList "get_filter"
  , String.toList "home_filter" ]

/-- The parsed CLI arguments (`args`): `-n` (`--resource-name`) and
`-p` (`--parameter`) are declared without `required=True`, so both default
to `None`; `function` is the sole positional argument. -/
structure Args where
  resource_name : Option Str
  function : Str
  parameter : Option Str
deriving DecidableEq

/-- The ways `argparse` rejects an invocation of this parser. -/
inductive ArgError where
  | unknownOption : Str → ArgError
  | missingValue : Str → ArgError
  | invalidChoice : Str → ArgError
  | extraArg : Str → ArgError
  | missingFunction : ArgError
deriving DecidableEq

/-- A command-line token that `argparse` treats as an option flag. -/
def isOptionToken (t : Str) : Bool :=
  match t with
  | '-' :: _ => true
  | _ => false

/-- Modelled from Python `argparse` semantics for the parser configured in
the source (`-n` and `--resource-name` taking one value, `-p` and
`--parameter` taking one value, one positional `function` restricted by
`choices`): scan the
tokens, consuming each option's value from the next token, rejecting
unknown options, a second positional, a positional not among the choices,
and a missing positional.  (`--opt=value` spelling is not modelled.) -/
def parseArgsLoop : List Str → Option Str → Option Str → Option Str →
    Except ArgError Args
  | [], rn, fn?, p =>
      match fn? with
      | some fn => .ok ⟨rn, fn, p⟩
      | none => .error .missingFunction
  | t :: rest, rn, fn?, p =>
      if t = String.toList "-n" || t = String.toList "--resource-name" then
        match rest with
        | v :: rest2 => parseArgsLoop rest2 (some v) fn? p
        | [] => .error (.missingValue t)
      else if t = String.toList "-p" || t = String.toList "--parameter" then
        match rest with
        | v :: rest2 => parseArgsLoop rest2 rn fn? (some v)
        | [] => .error (.missingValue t)
      else if isOptionToken t then .error (.unknownOption t)
      else
        match fn? with
        | none =>
            if functionChoices.contains t then parseArgsLoop rest rn (some t) p
            else .error (.invalidChoice t)
        | some _ => .error (.extraArg t)

/-- `parser.parse_args(argv)` for the configured parser. -/
def parseArgs (argv : List Str) : Except ArgError Args :=
  parseArgsLoop argv none none none

/-- What the CLI dispatch produces: a printed getter result, silent setter
completion, or a propagated adapter exception. -/
inductive DispatchResult where
  | printedQ : ℚ → DispatchResult
  | printedZ : Int → DispatchResult
  | printedS : Str → DispatchResult
  | done : DispatchResult
  | err : PyError → DispatchResult
deriving DecidableEq

/-- Lift a setter's outcome into a dispatch result. -/
def ofUnit : Except PyError Unit → DispatchResult
  | .ok () => .done
  | .error e => .err e

/-- Lift a float getter's outcome into a dispatch result (`print`). -/
def ofQ : Except PyError ℚ → DispatchResult
  | .ok q => .printedQ q
  | .error e => .err e

/-- Lift an int getter's outcome into a dispatch result (`print`). -/
def ofZ : Except PyError Int → DispatchResult
  | .ok n => .printedZ n
  | .error e => .err e

/-- The `if args.function == ... / elif ...` dispatch chain of the CLI, in
source order, invoking the instrument-adapter operations.  Returns the list
of commands transmitted over the transport together with the outcome. -/
def cliDispatch (args : Args) (instr : Str → Str) : List Str × DispatchResult :=
  if args.function = String.toList "set_scan_speed" then
    let r := sp2150.scan_speed_set instr args.parameter
    (r.1, ofUnit r.2)
  else if args.function = String.toList "get_scan_speed" then
    let r := sp2150.scan_speed_get instr
    (r.1, ofQ r.2)
  else if args.function = String.toList "scan_to_wavelength" then
    let r := sp2150.scan_to_wavelength instr args.parameter
    (r.1, ofUnit r.2)
  else if args.function = String.toList "goto_wavelength" then
    let r := sp2150.wavelength_set instr args.parameter
    (r.1, ofUnit r.2)
  else if args.function = String.toList "get_wavelength" then
    let r := sp2150.wavelength_get instr
    (r.1, ofQ r.2)
  else if args.function = String.toList "set_grating" then
    let r := sp2150.grating_set instr args.parameter
    (r.1, ofUnit r.2)
  else if args.function = String.toList "get_grating" then
    let r := sp2150.grating_get instr
    (r.1, ofZ r.2)
  else if args.function = String.toList "set_turret" then
    let r := sp2150.turret_set instr args.parameter
    (r.1, ofUnit r.2)
  else if args.function = String.toList "get_turret" then
    let r := sp2150.turret_get instr
    (r.1, ofZ r.2)
  else if args.function = String.toList "get_grating_info" then
    let r := sp2150.grating_info_get instr
    (r.1, .printedS r.2)
  else if args.function = String.toList "get_turret_info" then
    let r := sp2150.turret_info_get instr
    (r.1, .printedS r.2)
  else if args.function = String.toList "set_filter" then
    let r := sp2150.filter_set instr args.parameter
    (r.1, ofUnit r.2)
  else if args.function = String.toList "get_filter" then
    let r := sp2150.filter_get instr
    (r.1, ofZ r.2)
  else if args.function = String.toList "home_filter" then
    let r := sp2150.home_filter instr
    (r.1, .done)
  else ([], .done)

/-- The CLI `__main__` body: parse the arguments, and only on success
connect and dispatch.  A parse error terminates the process before any
transport traffic. -/
def cliMain (argv : List Str) (instr : Str → Str) :
    Except ArgError (List Str × DispatchResult) :=
  (parseArgs argv).map (fun args => cliDispatch args instr)

end cli

/-! ## Helper lemmas on the decimal renderers -/

/-- A numeric string with exactly one decimal place: an optional minus sign,
a nonempty run of digits, then a dot followed by exactly one digit.  Since
no digit and no minus sign is a dot, such a string contains exactly one dot
and exactly one character after it. -/
def isFixed1String (s : Str) : Prop :=
  ∃ sign ds d, s = sign ++ ds ++ ['.', d] ∧ (sign = [] ∨ sign = ['-']) ∧
    ds ≠ [] ∧ (∀ c ∈ ds, c.isDigit = true) ∧ d.isDigit = true

/-- An integer string: an optional minus sign followed by a nonempty run of
digits (in particular, no decimal point anywhere). -/
def isIntString (s : Str) : Prop :=
  ∃ sign ds, s = sign ++ ds ∧ (sign = [] ∨ sign = ['-']) ∧
    ds ≠ [] ∧ (∀ c ∈ ds, c.isDigit = true)

theorem digitChar_isDigit {m : Nat} (h : m < 10) : (digitChar m).isDigit = true := by
  interval_cases m <;> decide

theorem natDigitsAux_all_digit :
    ∀ (fuel n : Nat), ∀ c ∈ natDigitsAux fuel n, c.isDigit = true := by
  intro fuel
  induction fuel with
  | zero => intro n c hc; simp [natDigitsAux] at hc
  | succ fuel ih =>
      intro n c hc
      rw [natDigitsAux] at hc
      by_cases h : n < 10
      · simp only [if_pos h, List.mem_singleton] at hc
        exact hc ▸ digitChar_isDigit h
      · simp only [if_neg h, List.mem_append, List.mem_singleton] at hc
        rcases hc with hc | hc
        · exact ih (n / 10) c hc
        · exact hc ▸ digitChar_isDigit (Nat.mod_lt n (by omega))

theorem natDigits_all_digit (n : Nat) : ∀ c ∈ natDigits n, c.isDigit = true :=
  natDigitsAux_all_digit (n + 1) n

theorem natDigits_ne_nil (n : Nat) : natDigits n ≠ [] := by
  rw [natDigits, natDigitsAux]
  by_cases h : n < 10
  · simp [if_pos h]
  · simp [if_neg h]

theorem isDigit_ne_dot {c : Char} (h : c.isDigit = true) : c ≠ '.' := by
  intro he
  subst he
  simp at h

theorem isFixed1String_formatFixed1 (t : Int) : isFixed1String (formatFixed1 t) := by
  refine ⟨if t < 0 then ['-'] else [], natDigits (t.natAbs / 10),
    digitChar (t.natAbs % 10), ?_, ?_, natDigits_ne_nil _,
    natDigits_all_digit _, digitChar_isDigit (Nat.mod_lt _ (by omega))⟩
  · simp [formatFixed1]
  · by_cases h : t < 0 <;> simp [h]

theorem isIntString_intStr (n : Int) : isIntString (intStr n) := by
  refine ⟨if n < 0 then ['-'] else [], natDigits n.natAbs, rfl, ?_,
    natDigits_ne_nil _, natDigits_all_digit _⟩
  by_cases h : n < 0 <;> simp [h]

theorem dot_not_mem_intStr (n : Int) : '.' ∉ intStr n := by
  intro hmem
  rw [intStr, List.mem_append] at hmem
  rcases hmem with h | h
  · by_cases hn : n < 0 <;> simp [hn] at h
  · exact isDigit_ne_dot (natDigits_all_digit n.natAbs _ h) rfl

/-! ## Behaviour of the shared reply-handling primitives -/

theorem setter_query_ok_iff (resp : Str) :
    (sp2150.setter_query resp = .ok () ↔ pyEndswith resp sp2150.okSuffix = true) ∧
    (pyEndswith resp sp2150.okSuffix = false →
      sp2150.setter_query resp = .error (.validation (sp2150.errMsg resp))) := by
  cases h : pyEndswith resp sp2150.okSuffix <;> simp [sp2150.setter_query, h]

theorem floatParse_spec (s : Str) :
    (∀ m, floatParse s ≠ .error (.validation m)) ∧
    (∀ q : ℚ, floatParse s = .ok q ↔ pyParseFloat s = some q) ∧
    (floatParse s = .error (.format s) ↔ pyParseFloat s = none) := by
  cases h : pyParseFloat s <;> simp [floatParse, h]

theorem intParse_spec (s : Str) :
    (∀ m, intParse s ≠ .error (.validation m)) ∧
    (∀ n : Int, intParse s = .ok n ↔ pyParseInt s = some n) ∧
    (intParse s = .error (.format s) ↔ pyParseInt s = none) := by
  cases h : pyParseInt s <;> simp [intParse, h]

/-! ## Claims about the virtual adapter and simple getters -/

/-- **C6.** When the reply to the `?NM/MIN` scan-speed query is exactly
`"1000.0 ok\r\n"`, the get-scan-speed operation returns 1000.0. -/
theorem C6_scan_speed_reply_parses :
    (sp2150.scan_speed_get (fun _ => String.toList "1000.0 ok\r\n")).2 = .ok 1000 := by
  have h : (sp2150.scan_speed_get (fun _ => String.toList "1000.0 ok\r\n")).2
      = .ok (((1000 : Nat) : ℚ) + ((0 : Nat) : ℚ) / (10 : ℚ) ^ (1 : Nat)) := rfl
  rw [h]
  norm_num

/-- **C7.** On the virtual adapter, setting the wavelength to 500.0 and then
reading the wavelength returns 500.0, from any prior state. -/
theorem C7_wavelength_roundtrip (s : virtual_sp2150.VState) :
    virtual_sp2150.wavelength_get (virtual_sp2150.wavelength_set s (.float 500))
      = .float 500 := rfl

/-- **C8.** On the virtual adapter, `home_filter` sets the filter field to 1,
so a subsequent get-filter returns 1 regardless of the prior state. -/
theorem C8_home_filter_resets (s : virtual_sp2150.VState) :
    virtual_sp2150.filter_get (virtual_sp2150.home_filter s) = .int 1 := rfl

/-- **C9.** The grating-info and turret-info getters strip the character SET
`{' ', 'o', 'k', '\r', '\n'}` from both ends of the reply (not the literal
suffix `" ok\r\n"`): a payload that itself starts or ends with one of those
characters is truncated beyond the terminator, as the concrete replies
`"ok 1200 ok\r\n"` and `"halo ok\r\n"` show. -/
theorem C9_info_char_set_strip :
    (∀ resp : Str,
      (sp2150.grating_info_get (fun _ => resp)).2 = pyStrip resp sp2150.stripChars ∧
      (sp2150.turret_info_get (fun _ => resp)).2 = pyStrip resp sp2150.stripChars) ∧
    (sp2150.grating_info_get (fun _ => String.toList "ok 1200 ok\r\n")).2
      = String.toList "1200" ∧
    (sp2150.grating_info_get (fun _ => String.toList "ok 1200 ok\r\n")).2
      ≠ String.toList "ok 1200" ∧
    (sp2150.turret_info_get (fun _ => String.toList "halo ok\r\n")).2
      = String.toList "hal" := by
  refine ⟨fun resp => ⟨rfl, rfl⟩, by decide, by decide, by decide⟩

/-- **C10.** Frame property of the virtual adapter: each mutating operation
writes exactly its own field (the written value for the six setters, the
constant 1 for `home_filter`) and leaves the six other fields unchanged. -/
theorem C10_virtual_frame (s : virtual_sp2150.VState) (v : PyVal) :
    ((virtual_sp2150.scan_speed_set s v).scan_speed = v ∧
      (virtual_sp2150.scan_speed_set s v).wavelength = s.wavelength ∧
      (virtual_sp2150.scan_speed_set s v).grating = s.grating ∧
      (virtual_sp2150.scan_speed_set s v).turret = s.turret ∧
      (virtual_sp2150.scan_speed_set s v).grating_info = s.grating_info ∧
      (virtual_sp2150.scan_speed_set s v).turret_info = s.turret_info ∧
      (virtual_sp2150.scan_speed_set s v).filter = s.filter) ∧
    ((virtual_sp2150.scan_to_wavelength s v).wavelength = v ∧
      (virtual_sp2150.scan_to_wavelength s v).scan_speed = s.scan_speed ∧
      (virtual_sp2150.scan_to_wavelength s v).grating = s.grating ∧
      (virtual_sp2150.scan_to_wavelength s v).turret = s.turret ∧
      (virtual_sp2150.scan_to_wavelength s v).grating_info = s.grating_info ∧
      (virtual_sp2150.scan_to_wavelength s v).turret_info = s.turret_info ∧
      (virtual_sp2150.scan_to_wavelength s v).filter = s.filter) ∧
    ((virtual_sp2150.wavelength_set s v).wavelength = v ∧
      (virtual_sp2150.wavelength_set s v).scan_speed = s.scan_speed ∧
      (virtual_sp2150.wavelength_set s v).grating = s.grating ∧
      (virtual_sp2150.wavelength_set s v).turret = s.turret ∧
      (virtual_sp2150.wavelength_set s v).grating_info = s.grating_info ∧
      (virtual_sp2150.wavelength_set s v).turret_info = s.turret_info ∧
      (virtual_sp2150.wavelength_set s v).filter = s.filter) ∧
    ((virtual_sp2150.grating_set s v).grating = v ∧
      (virtual_sp2150.grating_set s v).scan_speed = s.scan_speed ∧
      (virtual_sp2150.grating_set s v).wavelength = s.wavelength ∧
      (virtual_sp2150.grating_set s v).turret = s.turret ∧
      (virtual_sp2150.grating_set s v).grating_info = s.grating_info ∧
      (virtual_sp2150.grating_set s v).turret_info = s.turret_info ∧
      (virtual_sp2150.grating_set s v).filter = s.filter) ∧
    ((virtual_sp2150.turret_set s v).turret = v ∧
      (virtual_sp2150.turret_set s v).scan_speed = s.scan_speed ∧
      (virtual_sp2150.turret_set s v).wavelength = s.wavelength ∧
      (virtual_sp2150.turret_set s v).grating = s.grating ∧
      (virtual_sp2150.turret_set s v).grating_info = s.grating_info ∧
      (virtual_sp2150.turret_set s v).turret_info = s.turret_info ∧
      (virtual_sp2150.turret_set s v).filter = s.filter) ∧
    ((virtual_sp2150.filter_set s v).filter = v ∧
      (virtual_sp2150.filter_set s v).scan_speed = s.scan_speed ∧
      (virtual_sp2150.filter_set s v).wavelength = s.wavelength ∧
      (virtual_sp2150.filter_set s v).grating = s.grating ∧
      (virtual_sp2150.filter_set s v).turret = s.turret ∧
      (virtual_sp2150.filter_set s v).grating_info = s.grating_info ∧
      (virtual_sp2150.filter_set s v).turret_info = s.turret_info) ∧
    ((virtual_sp2150.home_filter s).filter = .int 1 ∧
      (virtual_sp2150.home_filter s).scan_speed = s.scan_speed ∧
      (virtual_sp2150.home_filter s).wavelength = s.wavelength ∧
      (virtual_sp2150.home_filter s).grating = s.grating ∧
      (virtual_sp2150.home_filter s).turret = s.turret ∧
      (virtual_sp2150.home_filter s).grating_info = s.grating_info ∧
      (virtual_sp2150.home_filter s).turret_info = s.turret_info) :=
  ⟨⟨rfl, rfl, rfl, rfl, rfl, rfl, rfl⟩, ⟨rfl, rfl, rfl, rfl, rfl, rfl, rfl⟩,
    ⟨rfl, rfl, rfl, rfl, rfl, rfl, rfl⟩, ⟨rfl, rfl, rfl, rfl, rfl, rfl, rfl⟩,
    ⟨rfl, rfl, rfl, rfl, rfl, rfl, rfl⟩, ⟨rfl, rfl, rfl, rfl, rfl, rfl, rfl⟩,
    ⟨rfl, rfl, rfl, rfl, rfl, rfl, rfl⟩⟩

/-! ## Claims about the instrument adapter's command formatting and replies -/

/-- **C1.** Every numeric setter command formats its float parameter with
exactly one decimal place and its integer parameter with no decimal point:
whenever the parameter conversion succeeds, the single transmitted command
is a fixed-1 numeric string (resp. an integer string without a dot)
followed by the operation's keyword suffix. -/
theorem C1_setter_command_formatting (instr : Str → Str) (p : Option Str) :
    (∀ q : ℚ, pyFloatOf p = .ok q →
      (∃ num, (sp2150.scan_speed_set instr p).1 = [num ++ String.toList " NM/MIN"] ∧
        isFixed1String num) ∧
      (∃ num, (sp2150.scan_to_wavelength instr p).1 = [num ++ String.toList " NM"] ∧
        isFixed1String num) ∧
      (∃ num, (sp2150.wavelength_set instr p).1 = [num ++ String.toList " GOTO"] ∧
        isFixed1String num)) ∧
    (∀ g : Int, pyIntOf p = .ok g →
      (∃ num, (sp2150.grating_set instr p).1 = [num ++ String.toList " GRATING"] ∧
        isIntString num ∧ '.' ∉ num) ∧
      (∃ num, (sp2150.turret_set instr p).1 = [num ++ String.toList " TURRET"] ∧
        isIntString num ∧ '.' ∉ num) ∧
      (∃ num, (sp2150.filter_set instr p).1 = [num ++ String.toList " FILTER"] ∧
        isIntString num ∧ '.' ∉ num)) := by
  constructor
  · intro q hq
    refine ⟨⟨format1f q, ?_, isFixed1String_formatFixed1 _⟩,
      ⟨format1f q, ?_, isFixed1String_formatFixed1 _⟩,
      ⟨format1f q, ?_, isFixed1String_formatFixed1 _⟩⟩
    · simp [sp2150.scan_speed_set, hq]
    · simp [sp2150.scan_to_wavelength, hq]
    · simp [sp2150.wavelength_set, hq]
  · intro g hg
    refine ⟨⟨intStr g, ?_, isIntString_intStr _, dot_not_mem_intStr _⟩,
      ⟨intStr g, ?_, isIntString_intStr _, dot_not_mem_intStr _⟩,
      ⟨intStr g, ?_, isIntString_intStr _, dot_not_mem_intStr _⟩⟩
    · simp [sp2150.grating_set, hg]
    · simp [sp2150.turret_set, hg]
    · simp [sp2150.filter_set, hg]

/-- Witness for C1 at the concrete parameter string `"2"`. -/
theorem C1_witness :
    (∃ num, (sp2150.scan_speed_set (fun _ => []) (some (String.toList "2"))).1
        = [num ++ String.toList " NM/MIN"] ∧ isFixed1String num) ∧
    (∃ num, (sp2150.grating_set (fun _ => []) (some (String.toList "2"))).1
        = [num ++ String.toList " GRATING"] ∧ isIntString num ∧ '.' ∉ num) :=
  ⟨((C1_setter_command_formatting (fun _ => []) (some (String.toList "2"))).1 _ rfl).1,
    ((C1_setter_command_formatting (fun _ => []) (some (String.toList "2"))).2 _ rfl).1⟩

/-- **C2.** For every reply and every successfully converted parameter, each
of the six setter-style operations succeeds exactly when the reply ends with
`"ok\r\n"`, and otherwise raises a validation error whose message is the
fixed prefix followed by the raw reply (so the message contains the reply). -/
theorem C2_setter_reply_validation (resp : Str) :
    (∃ pre post, sp2150.errMsg resp = pre ++ resp ++ post) ∧
    (∀ (p : Option Str) (q : ℚ), pyFloatOf p = .ok q →
      (((sp2150.scan_speed_set (fun _ => resp) p).2 = .ok () ↔
          pyEndswith resp sp2150.okSuffix = true) ∧
        (pyEndswith resp sp2150.okSuffix = false →
          (sp2150.scan_speed_set (fun _ => resp) p).2
            = .error (.validation (sp2150.errMsg resp)))) ∧
      (((sp2150.scan_to_wavelength (fun _ => resp) p).2 = .ok () ↔
          pyEndswith resp sp2150.okSuffix = true) ∧
        (pyEndswith resp sp2150.okSuffix = false →
          (sp2150.scan_to_wavelength (fun _ => resp) p).2
            = .error (.validation (sp2150.errMsg resp)))) ∧
      (((sp2150.wavelength_set (fun _ => resp) p).2 = .ok () ↔
          pyEndswith resp sp2150.okSuffix = true) ∧
        (pyEndswith resp sp2150.okSuffix = false →
          (sp2150.wavelength_set (fun _ => resp) p).2
            = .error (.validation (sp2150.errMsg resp))))) ∧
    (∀ (p : Option Str) (g : Int), pyIntOf p = .ok g →
      (((sp2150.grating_set (fun _ => resp) p).2 = .ok () ↔
          pyEndswith resp sp2150.okSuffix = true) ∧
        (pyEndswith resp sp2150.okSuffix = false →
          (sp2150.grating_set (fun _ => resp) p).2
            = .error (.validation (sp2150.errMsg resp)))) ∧
      (((sp2150.turret_set (fun _ => resp) p).2 = .ok () ↔
          pyEndswith resp sp2150.okSuffix = true) ∧
        (pyEndswith resp sp2150.okSuffix = false →
          (sp2150.turret_set (fun _ => resp) p).2
            = .error (.validation (sp2150.errMsg resp)))) ∧
      (((sp2150.filter_set (fun _ => resp) p).2 = .ok () ↔
          pyEndswith resp sp2150.okSuffix = true) ∧
        (pyEndswith resp sp2150.okSuffix = false →
          (sp2150.filter_set (fun _ => resp) p).2
            = .error (.validation (sp2150.errMsg resp))))) := by
  refine ⟨⟨String.toList
      "Command failed. Check parameter and try again. Instrument response message: ",
    [], by simp [sp2150.errMsg]⟩, ?_, ?_⟩
  · intro p q hq
    have h1 : (sp2150.scan_speed_set (fun _ => resp) p).2 = sp2150.setter_query resp := by
      simp [sp2150.scan_speed_set, hq]
    have h2 : (sp2150.scan_to_wavelength (fun _ => resp) p).2 = sp2150.setter_query resp := by
      simp [sp2150.scan_to_wavelength, sp2150.setter_query, hq]
    have h3 : (sp2150.wavelength_set (fun _ => resp) p).2 = sp2150.setter_query resp := by
      simp [sp2150.wavelength_set, hq]
    rw [h1, h2, h3]
    exact ⟨setter_query_ok_iff resp, setter_query_ok_iff resp, setter_query_ok_iff resp⟩
  · intro p g hg
    have h1 : (sp2150.grating_set (fun _ => resp) p).2 = sp2150.setter_query resp := by
      simp [sp2150.grating_set, hg]
    have h2 : (sp2150.turret_set (fun _ => resp) p).2 = sp2150.setter_query resp := by
      simp [sp2150.turret_set, hg]
    have h3 : (sp2150.filter_set (fun _ => resp) p).2 = sp2150.setter_query resp := by
      simp [sp2150.filter_set, hg]
    rw [h1, h2, h3]
    exact ⟨setter_query_ok_iff resp, setter_query_ok_iff resp, setter_query_ok_iff resp⟩

/-- Witness for C2: an ok-terminated reply is accepted by set-scan-speed and
a non-ok reply makes set-filter raise the validation error carrying it. -/
theorem C2_witness :
    (sp2150.scan_speed_set (fun _ => String.toList "ok\r\n")
        (some (String.toList "1000.0"))).2 = .ok () ∧
    (sp2150.filter_set (fun _ => String.toList "err\r\n")
        (some (String.toList "2"))).2
      = .error (.validation (sp2150.errMsg (String.toList "err\r\n"))) := by
  constructor
  · exact ((((C2_setter_reply_validation (String.toList "ok\r\n")).2.1
      (some (String.toList "1000.0")) _ rfl).1).1).mpr (by decide)
  · exact ((((C2_setter_reply_validation (String.toList "err\r\n")).2.2
      (some (String.toList "2")) _ rfl).2.2).2) (by decide)

/-- **C3.** Numeric getters never raise a validation error: they strip the
character set `" ok\r\n"` and hand the remainder to the numeric conversion,
returning its value when it parses and its format error when it does not —
even a reply with no `"ok\r\n"` suffix (such as `"3\r\n"`) is parsed. -/
theorem C3_getter_strip_then_parse :
    (∀ resp : Str,
      ((∀ m, (sp2150.scan_speed_get (fun _ => resp)).2 ≠ .error (.validation m)) ∧
        (∀ q : ℚ, (sp2150.scan_speed_get (fun _ => resp)).2 = .ok q ↔
          pyParseFloat (pyStrip resp sp2150.stripChars) = some q) ∧
        ((sp2150.scan_speed_get (fun _ => resp)).2
            = .error (.format (pyStrip resp sp2150.stripChars)) ↔
          pyParseFloat (pyStrip resp sp2150.stripChars) = none)) ∧
      ((∀ m, (sp2150.wavelength_get (fun _ => resp)).2 ≠ .error (.validation m)) ∧
        (∀ q : ℚ, (sp2150.wavelength_get (fun _ => resp)).2 = .ok q ↔
          pyParseFloat (pyStrip resp sp2150.stripChars) = some q) ∧
        ((sp2150.wavelength_get (fun _ => resp)).2
            = .error (.format (pyStrip resp sp2150.stripChars)) ↔
          pyParseFloat (pyStrip resp sp2150.stripChars) = none)) ∧
      ((∀ m, (sp2150.grating_get (fun _ => resp)).2 ≠ .error (.validation m)) ∧
        (∀ n : Int, (sp2150.grating_get (fun _ => resp)).2 = .ok n ↔
          pyParseInt (pyStrip resp sp2150.stripChars) = some n) ∧
        ((sp2150.grating_get (fun _ => resp)).2
            = .error (.format (pyStrip resp sp2150.stripChars)) ↔
          pyParseInt (pyStrip resp sp2150.stripChars) = none)) ∧
      ((∀ m, (sp2150.turret_get (fun _ => resp)).2 ≠ .error (.validation m)) ∧
        (∀ n : Int, (sp2150.turret_get (fun _ => resp)).2 = .ok n ↔
          pyParseInt (pyStrip resp sp2150.stripChars) = some n) ∧
        ((sp2150.turret_get (fun _ => resp)).2
            = .error (.format (pyStrip resp sp2150.stripChars)) ↔
          pyParseInt (pyStrip resp sp2150.stripChars) = none)) ∧
      ((∀ m, (sp2150.filter_get (fun _ => resp)).2 ≠ .error (.validation m)) ∧
        (∀ n : Int, (sp2150.filter_get (fun _ => resp)).2 = .ok n ↔
          pyParseInt (pyStrip resp sp2150.stripChars) = some n) ∧
        ((sp2150.filter_get (fun _ => resp)).2
            = .error (.format (pyStrip resp sp2150.stripChars)) ↔
          pyParseInt (pyStrip resp sp2150.stripChars) = none))) ∧
    (sp2150.grating_get (fun _ => String.toList "3\r\n")).2 = .ok 3 := by
  refine ⟨fun resp => ⟨floatParse_spec _, floatParse_spec _, intParse_spec _,
    intParse_spec _, intParse_spec _⟩, rfl⟩

/-! ## Claims about the CLI argument processing -/

theorem parseArgsLoop_nil_ok {rn fn? p : Option Str} {args : cli.Args}
    (h : cli.parseArgsLoop [] rn fn? p = .ok args) :
    ∃ f, fn? = some f ∧ args = ⟨rn, f, p⟩ := by
  cases fn? with
  | none => simp [cli.parseArgsLoop] at h
  | some f =>
      simp only [cli.parseArgsLoop, Except.ok.injEq] at h
      exact ⟨f, rfl, h.symm⟩

theorem parseArgsLoop_cons_eq (t : Str) (rest : List Str) (rn fn? p : Option Str) :
    cli.parseArgsLoop (t :: rest) rn fn? p =
      (if t = String.toList "-n" || t = String.toList "--resource-name" then
        (match rest with
          | v :: rest2 => cli.parseArgsLoop rest2 (some v) fn? p
          | [] => .error (.missingValue t))
      else if t = String.toList "-p" || t = String.toList "--parameter" then
        (match rest with
          | v :: rest2 => cli.parseArgsLoop rest2 rn fn? (some v)
          | [] => .error (.missingValue t))
      else if cli.isOptionToken t then .error (.unknownOption t)
      else
        (match fn? with
          | none =>
              if cli.functionChoices.contains t then cli.parseArgsLoop rest rn (some t) p
              else .error (.invalidChoice t)
          | some _ => .error (.extraArg t))) := by
  rw [cli.parseArgsLoop.eq_def]

theorem parseArgsLoop_function_mem :
    ∀ (n : Nat) (argv : List Str), argv.length ≤ n →
      ∀ (rn fn? p : Option Str) (args : cli.Args),
        (∀ f, fn? = some f → cli.functionChoices.contains f = true) →
        cli.parseArgsLoop argv rn fn? p = .ok args →
        cli.functionChoices.contains args.function = true := by
  intro n
  induction n with
  | zero =>
      intro argv hlen rn fn? p args hinv hok
      have hnil : argv = [] := List.length_eq_zero.mp (Nat.le_zero.mp hlen)
      subst hnil
      obtain ⟨f, hf, hargs⟩ := parseArgsLoop_nil_ok hok
      subst hargs
      exact hinv f hf
  | succ n ih =>
      intro argv hlen rn fn? p args hinv hok
      cases argv with
      | nil =>
          obtain ⟨f, hf, hargs⟩ := parseArgsLoop_nil_ok hok
          subst hargs
          exact hinv f hf
      | cons t rest =>
          have hrest : rest.length ≤ n := by
            simp only [List.length_cons] at hlen
            omega
          rw [parseArgsLoop_cons_eq] at hok
          by_cases h1 : (t = String.toList "-n" ∨ t = String.toList "--resource-name")
          · rw [if_pos (by simpa using h1)] at hok
            cases rest with
            | nil =>
                exact Except.noConfusion (show Except.error (cli.ArgError.missingValue t)
                  = Except.ok args from hok)
            | cons v rest2 =>
                exact ih rest2 (by simp only [List.length_cons] at hrest; omega)
                  (some v) fn? p args hinv hok
          · rw [if_neg (by simpa using h1)] at hok
            by_cases h2 : (t = String.toList "-p" ∨ t = String.toList "--parameter")
            · rw [if_pos (by simpa using h2)] at hok
              cases rest with
              | nil =>
                  exact Except.noConfusion (show Except.error (cli.ArgError.missingValue t)
                    = Except.ok args from hok)
              | cons v rest2 =>
                  exact ih rest2 (by simp only [List.length_cons] at hrest; omega)
                    rn fn? (some v) args hinv hok
            · rw [if_neg (by simpa using h2)] at hok
              by_cases h3 : cli.isOptionToken t = true
              · rw [if_pos h3] at hok
                exact Except.noConfusion (show Except.error (cli.ArgError.unknownOption t)
                  = Except.ok args from hok)
              · rw [if_neg h3] at hok
                cases fn? with
                | some f =>
                    exact Except.noConfusion (show Except.error (cli.ArgError.extraArg t)
                      = Except.ok args from hok)
                | none =>
                    have hok2 : (if cli.functionChoices.contains t then
                        cli.parseArgsLoop rest rn (some t) p
                      else (.error (.invalidChoice t) : Except cli.ArgError cli.Args))
                        = .ok args := hok
                    by_cases h4 : cli.functionChoices.contains t = true
                    · rw [if_pos h4] at hok2
                      refine ih rest hrest rn (some t) p args ?_ hok2
                      intro f hf
                      cases hf
                      exact h4
                    · rw [if_neg h4] at hok2
                      exact Except.noConfusion (show Except.error (cli.ArgError.invalidChoice t)
                        = Except.ok args from hok2)

/-- **C5.** Argument parsing only ever succeeds with one of the fourteen
listed function names, the CLI dispatch (and hence any transport call) is
reached only through such a success, and an invocation naming an unknown
function is rejected by argument processing with no transport session
opened. -/
theorem C5_unknown_function_no_transport :
    (∀ (argv : List Str) (args : cli.Args), cli.parseArgs argv = .ok args →
      cli.functionChoices.contains args.function = true) ∧
    (∀ (argv : List Str) (instr : Str → Str) (out : List Str × cli.DispatchResult),
      cli.cliMain argv instr = .ok out →
      ∃ args, cli.parseArgs argv = .ok args ∧
        cli.functionChoices.contains args.function = true) ∧
    (∀ (fn : Str) (instr : Str → Str), cli.functionChoices.contains fn = false →
      ∃ e, cli.cliMain [fn] instr = .error e) := by
  have hmain : ∀ (argv : List Str) (args : cli.Args), cli.parseArgs argv = .ok args →
      cli.functionChoices.contains args.function = true := by
    intro argv args h
    exact parseArgsLoop_function_mem argv.length argv le_rfl none none none args
      (fun f hf => Option.noConfusion hf) h
  refine ⟨hmain, ?_, ?_⟩
  · intro argv instr out h
    cases hpa : cli.parseArgs argv with
    | error e => simp [cli.cliMain, hpa, Except.map] at h
    | ok args => exact ⟨args, rfl, hmain argv args hpa⟩
  · intro fn instr hfn
    have hmap : ∀ e, cli.parseArgs [fn] = .error e → cli.cliMain [fn] instr = .error e := by
      intro e he
      simp [cli.cliMain, he, Except.map]
    by_cases h1 : (fn = String.toList "-n" ∨ fn = String.toList "--resource-name")
    · refine ⟨.missingValue fn, hmap _ ?_⟩
      show cli.parseArgsLoop [fn] none none none = _
      rw [parseArgsLoop_cons_eq, if_pos (by simpa using h1)]
    · by_cases h2 : (fn = String.toList "-p" ∨ fn = String.toList "--parameter")
      · refine ⟨.missingValue fn, hmap _ ?_⟩
        show cli.parseArgsLoop [fn] none none none = _
        rw [parseArgsLoop_cons_eq, if_neg (by simpa using h1), if_pos (by simpa using h2)]
      · by_cases h3 : cli.isOptionToken fn = true
        · refine ⟨.unknownOption fn, hmap _ ?_⟩
          show cli.parseArgsLoop [fn] none none none = _
          rw [parseArgsLoop_cons_eq, if_neg (by simpa using h1), if_neg (by simpa using h2),
            if_pos h3]
        · refine ⟨.invalidChoice fn, hmap _ ?_⟩
          show cli.parseArgsLoop [fn] none none none = _
          rw [parseArgsLoop_cons_eq, if_neg (by simpa using h1), if_neg (by simpa using h2),
            if_neg h3]
          show (if cli.functionChoices.contains fn then cli.parseArgsLoop [] none (some fn) none
            else .error (.invalidChoice fn)) = _
          rw [if_neg (by simpa using hfn)]

/-- Witness for C5: a known function name passes the choices check, a
dispatch that ran implies its name was listed, and the unknown name
`"frobnicate"` is rejected before any transport call. -/
theorem C5_witness :
    cli.functionChoices.contains (String.toList "home_filter") = true ∧
    (∃ args, cli.parseArgs [String.toList "home_filter"] = .ok args ∧
      cli.functionChoices.contains args.function = true) ∧
    (∃ e, cli.cliMain [String.toList "frobnicate"] (fun _ => []) = .error e) :=
  ⟨C5_unknown_function_no_transport.1 [String.toList "home_filter"]
      ⟨none, String.toList "home_filter", none⟩ rfl,
    C5_unknown_function_no_transport.2.1 [String.toList "home_filter"] (fun _ => [])
      ([String.toList "FHOME"], .done) rfl,
    C5_unknown_function_no_transport.2.2 (String.toList "frobnicate") (fun _ => [])
      (by decide)⟩

/-- **C4 counterexample.** Invoking the CLI with just `set_grating` — a
setter function, with no `-p` and no `-n` — passes argument processing and
proceeds to the adapter call (which only then fails, with a `TypeError`
from `int(None)`, before transmitting anything): argument processing does
NOT fail, refuting the claim. -/
theorem C4_counterexample :
    cli.parseArgs [String.toList "set_grating"]
      = .ok ⟨none, String.toList "set_grating", none⟩ ∧
    cli.cliMain [String.toList "set_grating"] (fun _ => [])
      = .ok ([], .err .typeErr) :=
  ⟨rfl, rfl⟩

/-- **C4 (amended).** Neither `-n` nor `-p` is required by argument
processing: for each of the six setter/scan functions, invoking the CLI
with only the function name parses successfully (resource name and
parameter both `None`) and proceeds to the adapter call, which raises a
`TypeError` in the numeric conversion of the missing parameter before any
command is transmitted. -/
theorem C4_amended_arguments_optional (instr : Str → Str) :
    (cli.parseArgs [String.toList "set_scan_speed"]
        = .ok ⟨none, String.toList "set_scan_speed", none⟩ ∧
      cli.cliMain [String.toList "set_scan_speed"] instr = .ok ([], .err .typeErr)) ∧
    (cli.parseArgs [String.toList "scan_to_wavelength"]
        = .ok ⟨none, String.toList "scan_to_wavelength", none⟩ ∧
      cli.cliMain [String.toList "scan_to_wavelength"] instr = .ok ([], .err .typeErr)) ∧
    (cli.parseArgs [String.toList "goto_wavelength"]
        = .ok ⟨none, String.toList "goto_wavelength", none⟩ ∧
      cli.cliMain [String.toList "goto_wavelength"] instr = .ok ([], .err .typeErr)) ∧
    (cli.parseArgs [String.toList "set_grating"]
        = .ok ⟨none, String.toList "set_grating", none⟩ ∧
      cli.cliMain [String.toList "set_grating"] instr = .ok ([], .err .typeErr)) ∧
    (cli.parseArgs [String.toList "set_turret"]
        = .ok ⟨none, String.toList "set_turret", none⟩ ∧
      cli.cliMain [String.toList "set_turret"] instr = .ok ([], .err .typeErr)) ∧
    (cli.parseArgs [String.toList "set_filter"]
        = .ok ⟨none, String.toList "set_filter", none⟩ ∧
      cli.cliMain [String.toList "set_filter"] instr = .ok ([], .err .typeErr)) :=
  ⟨⟨rfl, rfl⟩, ⟨rfl, rfl⟩, ⟨rfl, rfl⟩, ⟨rfl, rfl⟩, ⟨rfl, rfl⟩, ⟨rfl, rfl⟩⟩

/-- Witness for C3 at the concrete reply `"2 ok\r\n"` for the filter getter. -/
theorem C3_witness :
    (sp2150.filter_get (fun _ => String.toList "2 ok\r\n")).2 = .ok 2 :=
  ((C3_getter_strip_then_parse.1 (String.toList "2 ok\r\n")).2.2.2.2.2.1 2).mpr (by decide)

/-- Witness for C7 at the initial virtual state. -/
theorem C7_witness :
    virtual_sp2150.wavelength_get
      (virtual_sp2150.wavelength_set virtual_sp2150.init (.float 500)) = .float 500 :=
  C7_wavelength_roundtrip virtual_sp2150.init

/-- Witness for C8 at the initial virtual state. -/
theorem C8_witness :
    virtual_sp2150.filter_get (virtual_sp2150.home_filter virtual_sp2150.init) = .int 1 :=
  C8_home_filter_resets virtual_sp2150.init

/-- Witness for C9: the truncating concrete reply. -/
theorem C9_witness :
    (sp2150.grating_info_get (fun _ => String.toList "ok 1200 ok\r\n")).2
      = String.toList "1200" :=
  C9_info_char_set_strip.2.1

/-- Witness for C10 at the initial virtual state and a concrete value. -/
theorem C10_witness :
    (virtual_sp2150.home_filter virtual_sp2150.init).filter = .int 1 ∧
    (virtual_sp2150.grating_set virtual_sp2150.init (.int 2)).turret
      = virtual_sp2150.init.turret :=
  ⟨(C10_virtual_frame virtual_sp2150.init (.int 2)).2.2.2.2.2.2.1,
    (C10_virtual_frame virtual_sp2150.init (.int 2)).2.2.2.1.2.2.2.1⟩

/-- Witness for the amended C4 at a concrete transport oracle. -/
theorem C4_amended_witness :
    cli.parseArgs [String.toList "set_filter"]
      = .ok ⟨none, String.toList "set_filter", none⟩ ∧
    cli.cliMain [String.toList "set_filter"] (fun _ => []) = .ok ([], .err .typeErr) :=
  (C4_amended_arguments_optional (fun _ => [])).2.2.2.2.2
